import Mathlib

/-!
Shallow embedding of `infrastructure/beacon_server.py` (SCION beacon server):
the PCB data model, the AD-marking builder, the propagation fan-out, the
core-role propagation tick, the loop-prevention filter, and the path
registration routines of the core and leaf roles.

Packet-library classes (`lib/packet/pcb.py`, `lib/packet/opaque_field.py`,
`lib/packet/scion.py`) are not part of the sources; the few members of
theirs that the beacon server calls are modelled from the spec and are
marked as such in their doc comments.  Machine state that Python mutates
in place (queues, the pcb being propagated) is passed explicitly; a Python
exception escaping a routine (KeyError on a missing `ifid2addr` entry,
missing path server) is modelled as an `Option` result of `none`.
Addresses are modelled as `Nat`.  The timestamp uses `ℚ` because Python 3
true division `/` produces an exact non-integral value here (division by 4
of an integer below 2 ^ 18 is exact in binary floating point, so `ℚ`
matches the float semantics on these operands exactly).
-/

namespace Scion

/-- Opaque hop field: the pair of ingress and egress interface ids. -/
structure HopOpaqueField where
  ingress_if : Nat
  egress_if : Nat
deriving DecidableEq

/-- Signature support field; `block_size` is the byte length of the signed region. -/
structure SupportSignatureField where
  block_size : Nat
deriving DecidableEq

/-- Support field of a PCBMarking, carrying the AD's ISD id. -/
structure SupportPCBField where
  isd_id : Nat
deriving DecidableEq

/-- Support field of a PeerMarking, carrying the peer's ISD id. -/
structure SupportPeerField where
  isd_id : Nat
deriving DecidableEq

/-- ROT field: the interface id the beacon currently carries
(set to the egress interface by the sender right before it adds its marking). -/
structure ROTField where
  if_id : Nat
deriving DecidableEq

/-- Opaque field types; only `TDC_XOVR` is used by the beacon server. -/
inductive OFT where
  | TDC_XOVR
deriving DecidableEq

/-- Info opaque field: type tag, quantized timestamp, ISD id.  The timestamp is
a rational because the Python 3 code computes it with true division. -/
structure InfoOpaqueField where
  info : OFT
  timestamp : ℚ
  isd_id : Nat
deriving DecidableEq

/-- One AD's own marking: AD id, signature-scope field, hop field, support field. -/
structure PCBMarking where
  ad_id : Nat
  ssf : SupportSignatureField
  hof : HopOpaqueField
  spcbf : SupportPCBField
deriving DecidableEq

/-- A peering-link marking: the peer neighbor's AD id, its hop field, its support field. -/
structure PeerMarking where
  ad_id : Nat
  hof : HopOpaqueField
  spf : SupportPeerField
deriving DecidableEq

/-- One AD's attestation inside a PCB: a PCBMarking, the peer markings, and the
per-marking signature bytes (modelled as a list of bytes; spec: "removing
signatures strips per-marking signature bytes"). -/
structure ADMarking where
  pcbm : PCBMarking
  pms : List PeerMarking
  sig : List Nat
deriving DecidableEq

/-- A Path Construction Beacon: info field, ROT field, and the append-only
ordered sequence of AD markings (oldest first). -/
structure HalfPathBeacon where
  iof : InfoOpaqueField
  rotf : ROTField
  ads : List ADMarking
deriving DecidableEq

/-- A routable path object, as produced by `get_path`: a sequence of hop fields. -/
structure CorePath where
  hops : List HopOpaqueField
deriving DecidableEq

/-- PathInfoType tags: up-, down- and core-path segments. -/
inductive PIT where
  | up
  | down
  | core
deriving DecidableEq

/-- A PathInfo names a segment kind and its source and destination ISD/AD. -/
structure PathInfo where
  type : PIT
  src_isd : Nat
  dst_isd : Nat
  src_ad : Nat
  dst_ad : Nat
deriving DecidableEq

/-- A PathRecords message: destination address, PathInfo, the PCBs forming the
segment, and optionally a distinct routable path used to address the record. -/
structure PathRecords where
  dst : Nat
  info : PathInfo
  pcbs : List HalfPathBeacon
  path : Option CorePath
deriving DecidableEq

/-- Outbound messages produced by the beacon server: beacons and path records. -/
inductive Msg where
  | beacon (dst : Nat) (pcb : HalfPathBeacon)
  | pathRec (pr : PathRecords)
deriving DecidableEq

/-- A neighbor router's interface: its interface id and the neighboring AD's id. -/
structure InterfaceInfo where
  if_id : Nat
  neighbor_ad : Nat
deriving DecidableEq

/-- A neighbor router: its address and its interface description. -/
structure RouterInfo where
  addr : Nat
  interface : InterfaceInfo
deriving DecidableEq

/-- The read-only topology: own ISD/AD identity, the neighbor routers by
category (CHILD, PEER, ROUTING), and the local path server's address when one
is configured (`ElementType.PATH_SERVER in self.topology.servers`). -/
structure Topology where
  isd_id : Nat
  ad_id : Nat
  child_routers : List RouterInfo
  peer_routers : List RouterInfo
  routing_routers : List RouterInfo
  path_server : Option Nat
deriving DecidableEq

/-- The server-wide read-only context: topology, own address, and the
interface-id to next-hop-address table `ifid2addr`. -/
structure ServerCtx where
  topo : Topology
  addr : Nat
  ifid2addr : List (Nat × Nat)
deriving DecidableEq

/-- The two FIFO queues of a beacon server (front of the list = front of the deque). -/
structure BSState where
  beacons : List HalfPathBeacon
  reg_queue : List HalfPathBeacon
deriving DecidableEq

/-- DELTA = 24 * 60 * 60: amount of real time a PCB packet is valid for. -/
def DELTA : Int := 24 * 60 * 60

/-- TIME_INTERVAL = 4: one SCION second. -/
def TIME_INTERVAL : Int := 4

/-- The timestamp computed in `CoreBeaconServer.handle_pcbs_propagation`:
`((int(time.time()) + BeaconServer.DELTA) % (BeaconServer.TIME_INTERVAL * (2 ** 16))) / BeaconServer.TIME_INTERVAL`.
Python 3 `/` is true division, so the result is rational, not an integer. -/
def pcb_timestamp (now : Int) : ℚ :=
  (((now + DELTA) % (TIME_INTERVAL * 2 ^ 16) : Int) : ℚ) / ((TIME_INTERVAL : Int) : ℚ)

/-- Modelled from the spec: the fixed serialized length of a `PeerMarking`
(class attribute `PeerMarking.LEN` of `lib/packet/pcb.py`, not under src/);
its concrete value is immaterial to the properties proved here. -/
def PeerMarking.LEN : Nat := 24

/-- Modelled from the spec: the base serialized length of a `PCBMarking`
(defined in `lib/packet/pcb.py`, not under src/); its concrete value is
immaterial to the properties proved here. -/
def PCBMarking.LEN : Nat := 32

/-- Modelled from the spec: `SupportSignatureField()` starts with `block_size`
equal to the base PCBMarking length ("initialize `block_size` to the base
PCBMarking length"; the constructor lives in `lib/packet/opaque_field.py`,
not under src/). -/
def SupportSignatureField.init : SupportSignatureField :=
  { block_size := PCBMarking.LEN }

/-- Modelled from the spec: `HalfPathBeacon.add_ad` appends the AD marking to
the beacon's append-only marking sequence (order = traversal order,
oldest-first; `lib/packet/pcb.py` is not under src/). -/
def HalfPathBeacon.add_ad (pcb : HalfPathBeacon) (ad_marking : ADMarking) : HalfPathBeacon :=
  { pcb with ads := pcb.ads ++ [ad_marking] }

/-- Modelled from the spec: `HalfPathBeacon.remove_signatures` strips the
per-marking signature bytes from every AD marking, leaving everything else
in place (`lib/packet/pcb.py` is not under src/). -/
def HalfPathBeacon.remove_signatures (pcb : HalfPathBeacon) : HalfPathBeacon :=
  { pcb with ads := pcb.ads.map (fun ad => { ad with sig := [] }) }

/-- Modelled from the spec: `HalfPathBeacon.get_first_ad` returns the first AD
marking's PCBMarking — callers read `.ad_id` and `.spcbf` from it ("the PCB's
first marking's ISD/AD"); `none` models the Python error on an empty marking
sequence (`lib/packet/pcb.py` is not under src/). -/
def HalfPathBeacon.get_first_ad (pcb : HalfPathBeacon) : Option PCBMarking :=
  pcb.ads.head?.map ADMarking.pcbm

/-- Modelled from the spec: `get_path(reverse_direction=True)` returns the
reverse-direction routable path implied by the marking sequence, i.e. the
markings' hop fields in reverse order (`lib/packet/pcb.py` is not under src/). -/
def HalfPathBeacon.get_path_reversed (pcb : HalfPathBeacon) : CorePath :=
  { hops := (pcb.ads.map (fun ad => ad.pcbm.hof)).reverse }

/-- Modelled from the spec: `get_first_hop_of` returns the path's first hop
field; `none` models the Python error on an empty path. -/
def CorePath.get_first_hop_of (path : CorePath) : Option HopOpaqueField :=
  path.hops.head?

/-- Lookup in the `ifid2addr` table; `none` models a Python `KeyError`. -/
def lookup_ifid (tbl : List (Nat × Nat)) (if_id : Nat) : Option Nat :=
  (tbl.find? (fun p => p.1 == if_id)).map Prod.snd

/-- The loop body of `BeaconServer._create_ad_marking` over one PEER neighbor:
build the peer's hop field from (peer interface, egress), a support field from
the own ISD id, the PeerMarking from the neighbor AD; grow `block_size` by
`PeerMarking.LEN` and append the marking. -/
def ad_marking_step (topo : Topology) (egress_if : Nat)
    (acc : PCBMarking × List PeerMarking) (router_peer : RouterInfo) :
    PCBMarking × List PeerMarking :=
  let hof : HopOpaqueField :=
    { ingress_if := router_peer.interface.if_id, egress_if := egress_if }
  let spf : SupportPeerField := { isd_id := topo.isd_id }
  let peer_marking : PeerMarking :=
    { ad_id := router_peer.interface.neighbor_ad, hof := hof, spf := spf }
  ({ acc.1 with ssf := { block_size := acc.1.ssf.block_size + PeerMarking.LEN } },
   acc.2 ++ [peer_marking])

/-- `BeaconServer._create_ad_marking(ingress_if, egress_if)`: the base
PCBMarking from (ingress, egress) and the own identity, then one PeerMarking
per PEER-category neighbor, incrementing `block_size` by each marking's length. -/
def create_ad_marking (topo : Topology) (ingress_if egress_if : Nat) : ADMarking :=
  let ssf := SupportSignatureField.init
  let hof : HopOpaqueField := { ingress_if := ingress_if, egress_if := egress_if }
  let spcbf : SupportPCBField := { isd_id := topo.isd_id }
  let pcbm : PCBMarking := { ad_id := topo.ad_id, ssf := ssf, hof := hof, spcbf := spcbf }
  let res := topo.peer_routers.foldl (ad_marking_step topo egress_if) (pcbm, [])
  { pcbm := res.1, pms := res.2, sig := [] }

/-- The loop body shared by `propagate_downstream_pcb` and `propagate_core_pcb`
over one neighbor router: `new_pcb = copy.deepcopy(pcb)` (an independent copy,
so the loop variable `pcb`, threaded in `acc.2`, is returned untouched), set the
copy's ROT field to the neighbor's interface id, build the AD marking from
(`ingress_if`, that egress), append it to the copy and send the resulting
beacon to the neighbor's address. -/
def propagate_step (topo : Topology) (ingress_if : Nat)
    (acc : List (Msg × Nat) × HalfPathBeacon) (router : RouterInfo) :
    List (Msg × Nat) × HalfPathBeacon :=
  let pcb := acc.2
  let new_pcb := pcb
  let egress_if := router.interface.if_id
  let new_pcb := { new_pcb with rotf := { new_pcb.rotf with if_id := egress_if } }
  let ad_marking := create_ad_marking topo ingress_if egress_if
  let new_pcb := new_pcb.add_ad ad_marking
  (acc.1 ++ [(Msg.beacon router.addr new_pcb, router.addr)], pcb)

/-- `BeaconServer.propagate_downstream_pcb(pcb)`: read `ingress_if` from the
pcb's ROT field once, then run the per-neighbor loop over every CHILD-category
router.  Returns the emitted (message, address) pairs in send order and the
post-state of the `pcb` variable. -/
def propagate_downstream_pcb (topo : Topology) (pcb : HalfPathBeacon) :
    List (Msg × Nat) × HalfPathBeacon :=
  let ingress_if := pcb.rotf.if_id
  topo.child_routers.foldl (propagate_step topo ingress_if) ([], pcb)

/-- `CoreBeaconServer.propagate_core_pcb(pcb)`: same loop as the downstream
variant, over every ROUTING-category (core-mesh) router. -/
def propagate_core_pcb (topo : Topology) (pcb : HalfPathBeacon) :
    List (Msg × Nat) × HalfPathBeacon :=
  let ingress_if := pcb.rotf.if_id
  topo.routing_routers.foldl (propagate_step topo ingress_if) ([], pcb)

/-- The inner `while self.beacons:` drain of
`CoreBeaconServer.handle_pcbs_propagation`: pop the front beacon, propagate it
to the core mesh, append the un-augmented original to `reg_queue`; stop when
the deque is empty.  Returns the emitted messages and the final `reg_queue`. -/
def core_drain (topo : Topology) :
    List HalfPathBeacon → List HalfPathBeacon → List (Msg × Nat) × List HalfPathBeacon
  | [], reg_queue => ([], reg_queue)
  | pcb :: rest, reg_queue =>
    let r := propagate_core_pcb topo pcb
    let rec' := core_drain topo rest (reg_queue ++ [pcb])
    (r.1 ++ rec'.1, rec'.2)

/-- One iteration of the outer `while True:` loop of
`CoreBeaconServer.handle_pcbs_propagation` (one propagation tick): compute the
timestamp once; build a fresh downstream beacon (empty ROT field, no markings)
and propagate it to the CHILD neighbors; build a fresh core-mesh beacon with
the same timestamp and propagate it to the ROUTING neighbors; then drain the
inbound queue.  `now` is `int(time.time())`. -/
def core_handle_pcbs_propagation (topo : Topology) (now : Int) (st : BSState) :
    List (Msg × Nat) × BSState :=
  let timestamp := pcb_timestamp now
  let downstream_pcb : HalfPathBeacon :=
    { iof := { info := OFT.TDC_XOVR, timestamp := timestamp, isd_id := topo.isd_id },
      rotf := { if_id := 0 }, ads := [] }
  let r1 := propagate_downstream_pcb topo downstream_pcb
  let core_pcb : HalfPathBeacon :=
    { iof := { info := OFT.TDC_XOVR, timestamp := timestamp, isd_id := topo.isd_id },
      rotf := { if_id := 0 }, ads := [] }
  let r2 := propagate_core_pcb topo core_pcb
  let r3 := core_drain topo st.beacons st.reg_queue
  (r1.1 ++ r2.1 ++ r3.1, { beacons := [], reg_queue := r3.2 })

/-- `CoreBeaconServer.process_pcb(beacon)`: scan the PCB's AD markings; if any
marking's PCBMarking carries the server's own (ISD id, AD id) the PCB is
dropped ("already seen"), otherwise it is appended to the inbound queue. -/
def core_process_pcb (topo : Topology) (st : BSState) (pcb : HalfPathBeacon) : BSState :=
  if pcb.ads.any (fun ad =>
      ad.pcbm.spcbf.isd_id == topo.isd_id && ad.pcbm.ad_id == topo.ad_id) then
    st
  else
    { st with beacons := st.beacons ++ [pcb] }

/-- `CoreBeaconServer.register_core_path(pcb)`: build the CORE PathInfo from
the first marking's identity and the own identity; if a local path server is
configured, send it the PathRecords; then strip signatures (mutating `pcb`),
compute the reversed path, and send a second PathRecords to the next hop that
the `ifid2addr` table gives for the reversed path's first hop's ingress
interface.  `none` models an uncaught Python error (empty marking sequence or
a `KeyError` on the table lookup); the post-state of `pcb` is returned. -/
def register_core_path (ctx : ServerCtx) (pcb : HalfPathBeacon) :
    Option (List (Msg × Nat) × HalfPathBeacon) := do
  let first_ad ← pcb.get_first_ad
  let info : PathInfo :=
    { type := PIT.core, src_isd := first_ad.spcbf.isd_id, dst_isd := ctx.topo.isd_id,
      src_ad := first_ad.ad_id, dst_ad := ctx.topo.ad_id }
  let local_sends : List (Msg × Nat) :=
    match ctx.topo.path_server with
    | some dst =>
      [(Msg.pathRec { dst := dst, info := info, pcbs := [pcb], path := none }, dst)]
    | none => []
  let pcb := pcb.remove_signatures
  let path := pcb.get_path_reversed
  let path_rec : PathRecords :=
    { dst := ctx.addr, info := info, pcbs := [pcb], path := some path }
  let first_hop ← path.get_first_hop_of
  let next_hop ← lookup_ifid ctx.ifid2addr first_hop.ingress_if
  return (local_sends ++ [(Msg.pathRec path_rec, next_hop)], pcb)

/-- One iteration of the inner `while self.reg_queue:` loop of
`CoreBeaconServer.register_paths` over the popped `pcb`:
`new_pcb = copy.deepcopy(pcb)` (so the popped original, returned as the second
component, stays untouched), append the terminating AD marking
(ingress = the copy's ROT interface, egress = 0), and register the core path. -/
def core_register_one (ctx : ServerCtx) (pcb : HalfPathBeacon) :
    Option (List (Msg × Nat) × HalfPathBeacon) := do
  let new_pcb := pcb
  let ad_marking := create_ad_marking ctx.topo new_pcb.rotf.if_id 0
  let new_pcb := new_pcb.add_ad ad_marking
  let r ← register_core_path ctx new_pcb
  return (r.1, pcb)

/-- The drain of the registration queue on a core registration tick; the first
uncaught error (`none`) aborts the whole loop. -/
def core_register_drain (ctx : ServerCtx) :
    List HalfPathBeacon → Option (List (Msg × Nat))
  | [] => some []
  | pcb :: rest => do
    let r ← core_register_one ctx pcb
    let rs ← core_register_drain ctx rest
    return r.1 ++ rs

/-- `LocalBeaconServer.register_up_path(pcb)`: build the UP PathInfo (src and
dst ISD both the own ISD, src AD the first marking's AD, dst AD the own AD) and
send the PathRecords, with the still-signed pcb, to the local path server's
address.  `none` models an uncaught Python error (empty marking sequence, or a
`KeyError` when no path server is configured — the access is unguarded). -/
def register_up_path (ctx : ServerCtx) (pcb : HalfPathBeacon) :
    Option (List (Msg × Nat)) := do
  let first_ad ← pcb.get_first_ad
  let info : PathInfo :=
    { type := PIT.up, src_isd := ctx.topo.isd_id, dst_isd := ctx.topo.isd_id,
      src_ad := first_ad.ad_id, dst_ad := ctx.topo.ad_id }
  let dst ← ctx.topo.path_server
  let up_path : PathRecords := { dst := dst, info := info, pcbs := [pcb], path := none }
  return [(Msg.pathRec up_path, dst)]

/-- `LocalBeaconServer.register_down_path(pcb)`: strip signatures (mutating
`pcb`), build the DOWN PathInfo (same ISD/AD fields as the UP one), compute the
reversed path, and send the PathRecords — addressed with the reversed path
attached — to the next hop that `ifid2addr` gives for the reversed path's
first hop's ingress interface.  `none` models an uncaught Python error. -/
def register_down_path (ctx : ServerCtx) (pcb : HalfPathBeacon) :
    Option (List (Msg × Nat) × HalfPathBeacon) := do
  let pcb := pcb.remove_signatures
  let first_ad ← pcb.get_first_ad
  let info : PathInfo :=
    { type := PIT.down, src_isd := ctx.topo.isd_id, dst_isd := ctx.topo.isd_id,
      src_ad := first_ad.ad_id, dst_ad := ctx.topo.ad_id }
  let core_path := pcb.get_path_reversed
  let down_path : PathRecords :=
    { dst := ctx.addr, info := info, pcbs := [pcb], path := some core_path }
  let first_hop ← core_path.get_first_hop_of
  let next_hop ← lookup_ifid ctx.ifid2addr first_hop.ingress_if
  return ([(Msg.pathRec down_path, next_hop)], pcb)

/-- One iteration of the inner `while self.reg_queue:` loop of
`LocalBeaconServer.register_paths` over the popped `pcb`: deep-copy, append the
terminating AD marking (ingress = the copy's ROT interface, egress = 0), then
register the up path and the down path; the popped original is returned as the
second component. -/
def local_register_one (ctx : ServerCtx) (pcb : HalfPathBeacon) :
    Option (List (Msg × Nat) × HalfPathBeacon) := do
  let new_pcb := pcb
  let ad_marking := create_ad_marking ctx.topo new_pcb.rotf.if_id 0
  let new_pcb := new_pcb.add_ad ad_marking
  let up ← register_up_path ctx new_pcb
  let r ← register_down_path ctx new_pcb
  return (up ++ r.1, pcb)

/-- The shape of each beacon emitted by the propagation fan-out, used in
theorem statements: the copy keeps the original's info field and marking
sequence, gets its ROT field set to the egress interface, and one new AD
marking `create_ad_marking topo ingress_if egress_if` appended. -/
def augmented_pcb (topo : Topology) (ingress_if : Nat) (pcb : HalfPathBeacon)
    (egress_if : Nat) : HalfPathBeacon :=
  { iof := pcb.iof, rotf := { if_id := egress_if },
    ads := pcb.ads ++ [create_ad_marking topo ingress_if egress_if] }

/-- The message a propagation loop sends to one neighbor router, used in
theorem statements. -/
def propagated_msg (topo : Topology) (ingress_if : Nat) (pcb : HalfPathBeacon)
    (router : RouterInfo) : Msg × Nat :=
  (Msg.beacon router.addr (augmented_pcb topo ingress_if pcb router.interface.if_id),
   router.addr)

/-- The value of each freshly originated beacon of a core propagation tick,
used in theorem statements: TDC_XOVR info with the quantized timestamp and the
own ISD id, an empty ROT field and no markings. -/
def origin_pcb (topo : Topology) (now : Int) : HalfPathBeacon :=
  { iof := { info := OFT.TDC_XOVR, timestamp := pcb_timestamp now, isd_id := topo.isd_id },
    rotf := { if_id := 0 }, ads := [] }

/-- Helper for concrete inputs: an AD marking whose PCBMarking carries the given
ISD and AD ids, with no peer markings and no signature bytes. -/
def mk_marking (isd ad : Nat) : ADMarking :=
  { pcbm := { ad_id := ad, ssf := { block_size := 0 },
              hof := { ingress_if := 0, egress_if := 0 },
              spcbf := { isd_id := isd } },
    pms := [], sig := [] }

/-- Concrete core-server context with a configured local path server but an
empty `ifid2addr` table. -/
def ctxC2 : ServerCtx :=
  { topo := { isd_id := 1, ad_id := 2, child_routers := [], peer_routers := [],
              routing_routers := [], path_server := some 9 },
    addr := 7, ifid2addr := [] }

/-- Concrete pcb whose ROT field names interface 5. -/
def pcbC2 : HalfPathBeacon :=
  { iof := { info := OFT.TDC_XOVR, timestamp := 0, isd_id := 1 },
    rotf := { if_id := 5 }, ads := [] }

/-- Concrete core-server context with no local path server and an `ifid2addr`
entry for interface 5. -/
def ctxC2w : ServerCtx :=
  { topo := { isd_id := 1, ad_id := 2, child_routers := [], peer_routers := [],
              routing_routers := [], path_server := none },
    addr := 7, ifid2addr := [(5, 42)] }

/-- Concrete topology whose own identity is (ISD 1, AD 5). -/
def topoC3 : Topology :=
  { isd_id := 1, ad_id := 5, child_routers := [], peer_routers := [],
    routing_routers := [], path_server := none }

/-- Concrete pcb carrying the own identity (1, 5) in the middle of three markings. -/
def pcbC3 : HalfPathBeacon :=
  { iof := { info := OFT.TDC_XOVR, timestamp := 0, isd_id := 1 },
    rotf := { if_id := 0 },
    ads := [mk_marking 1 4, mk_marking 1 5, mk_marking 1 6] }

/-- Empty queue state. -/
def stC3 : BSState := { beacons := [], reg_queue := [] }

/-- Concrete topology with one CHILD and one ROUTING neighbor. -/
def topoC4 : Topology :=
  { isd_id := 1, ad_id := 2,
    child_routers := [{ addr := 10, interface := { if_id := 3, neighbor_ad := 7 } }],
    peer_routers := [],
    routing_routers := [{ addr := 11, interface := { if_id := 4, neighbor_ad := 8 } }],
    path_server := none }

/-- Concrete pcb with one marking and ROT interface 9. -/
def pcbC4 : HalfPathBeacon :=
  { iof := { info := OFT.TDC_XOVR, timestamp := 0, isd_id := 1 },
    rotf := { if_id := 9 }, ads := [mk_marking 1 3] }

/-- Concrete topology with two PEER neighbors. -/
def topoC5 : Topology :=
  { isd_id := 1, ad_id := 2, child_routers := [],
    peer_routers := [{ addr := 20, interface := { if_id := 6, neighbor_ad := 30 } },
                     { addr := 21, interface := { if_id := 7, neighbor_ad := 31 } }],
    routing_routers := [], path_server := none }

/-- Concrete topology with one CHILD and one ROUTING neighbor, for the tick claims. -/
def topoC6 : Topology :=
  { isd_id := 1, ad_id := 2,
    child_routers := [{ addr := 12, interface := { if_id := 3, neighbor_ad := 7 } }],
    peer_routers := [],
    routing_routers := [{ addr := 13, interface := { if_id := 4, neighbor_ad := 8 } }],
    path_server := none }

/-- Concrete pcb sitting in the inbound queue. -/
def pcbC6 : HalfPathBeacon :=
  { iof := { info := OFT.TDC_XOVR, timestamp := 0, isd_id := 1 },
    rotf := { if_id := 2 }, ads := [mk_marking 2 9] }

/-- Inbound queue holding one pcb. -/
def stC6 : BSState := { beacons := [pcbC6], reg_queue := [] }

/-- Concrete leaf-server context: local path server at address 3, `ifid2addr`
mapping interface 5 to address 8. -/
def ctxC7 : ServerCtx :=
  { topo := { isd_id := 1, ad_id := 2, child_routers := [], peer_routers := [],
              routing_routers := [], path_server := some 3 },
    addr := 7, ifid2addr := [(5, 8)] }

/-- Concrete pcb with ROT interface 5 and one signed marking. -/
def pcbC7 : HalfPathBeacon :=
  { iof := { info := OFT.TDC_XOVR, timestamp := 0, isd_id := 1 },
    rotf := { if_id := 5 },
    ads := [{ pcbm := { ad_id := 4, ssf := { block_size := 0 },
                        hof := { ingress_if := 1, egress_if := 2 },
                        spcbf := { isd_id := 1 } },
              pms := [], sig := [7] }] }

/-- Concrete topology for the shared-timestamp claim. -/
def topoC8 : Topology :=
  { isd_id := 1, ad_id := 2,
    child_routers := [{ addr := 14, interface := { if_id := 3, neighbor_ad := 7 } }],
    peer_routers := [],
    routing_routers := [{ addr := 15, interface := { if_id := 4, neighbor_ad := 8 } }],
    path_server := none }

/-- The first message of a propagation tick of `topoC8`. -/
def mC8 : Msg × Nat :=
  propagated_msg topoC8 0 (origin_pcb topoC8 0)
    { addr := 14, interface := { if_id := 3, neighbor_ad := 7 } }

/-- Concrete core-server context whose registration fully succeeds: local path
server at address 3; `ifid2addr` maps interface 5 to address 8. -/
def ctxC9 : ServerCtx :=
  { topo := { isd_id := 1, ad_id := 2, child_routers := [], peer_routers := [],
              routing_routers := [], path_server := some 3 },
    addr := 7, ifid2addr := [(5, 8)] }

/-- Concrete pcb with ROT interface 5 and one signed marking. -/
def pcbC9 : HalfPathBeacon :=
  { iof := { info := OFT.TDC_XOVR, timestamp := 0, isd_id := 1 },
    rotf := { if_id := 5 },
    ads := [{ pcbm := { ad_id := 4, ssf := { block_size := 0 },
                        hof := { ingress_if := 1, egress_if := 2 },
                        spcbf := { isd_id := 1 } },
              pms := [], sig := [9] }] }

/-- The messages that `core_register_one` emits on `ctxC9`, `pcbC9`. -/
def sC9 : List (Msg × Nat) := ((core_register_one ctxC9 pcbC9).getD ([], pcbC9)).1

/-- Concrete topology whose own identity is (ISD 1, AD 5), for the
PeerMarking-insensitivity claim. -/
def topoC10 : Topology :=
  { isd_id := 1, ad_id := 5, child_routers := [], peer_routers := [],
    routing_routers := [], path_server := none }

/-- Concrete pcb whose only marking carries the own AD id 5 solely inside a
PeerMarking; its PCBMarking identity is (1, 6). -/
def pcbC10 : HalfPathBeacon :=
  { iof := { info := OFT.TDC_XOVR, timestamp := 0, isd_id := 1 },
    rotf := { if_id := 0 },
    ads := [{ pcbm := { ad_id := 6, ssf := { block_size := 0 },
                        hof := { ingress_if := 0, egress_if := 0 },
                        spcbf := { isd_id := 1 } },
              pms := [{ ad_id := 5, hof := { ingress_if := 2, egress_if := 3 },
                        spf := { isd_id := 1 } }],
              sig := [] }] }

/-- One step of the propagation loop emits exactly the message for that router
and leaves the threaded pcb untouched. -/
theorem propagate_step_eq (topo : Topology) (ingress_if : Nat)
    (sends : List (Msg × Nat)) (pcb : HalfPathBeacon) (router : RouterInfo) :
    propagate_step topo ingress_if (sends, pcb) router
      = (sends ++ [propagated_msg topo ingress_if pcb router], pcb) := rfl

/-- The propagation loop over any router list appends one message per router,
in order, and returns the pcb unchanged. -/
theorem propagate_foldl (topo : Topology) (ingress_if : Nat)
    (routers : List RouterInfo) (sends : List (Msg × Nat)) (pcb : HalfPathBeacon) :
    routers.foldl (propagate_step topo ingress_if) (sends, pcb)
      = (sends ++ routers.map (propagated_msg topo ingress_if pcb), pcb) := by
  induction routers generalizing sends with
  | nil => simp
  | cons r rs ih =>
    rw [List.foldl_cons, propagate_step_eq, ih]
    simp

/-- `propagate_downstream_pcb` sends exactly one augmented copy per CHILD
neighbor and leaves the original pcb unchanged. -/
theorem propagate_downstream_pcb_eq (topo : Topology) (pcb : HalfPathBeacon) :
    propagate_downstream_pcb topo pcb
      = (topo.child_routers.map (propagated_msg topo pcb.rotf.if_id pcb), pcb) := by
  rw [propagate_downstream_pcb, propagate_foldl]
  simp

/-- `propagate_core_pcb` sends exactly one augmented copy per ROUTING neighbor
and leaves the original pcb unchanged. -/
theorem propagate_core_pcb_eq (topo : Topology) (pcb : HalfPathBeacon) :
    propagate_core_pcb topo pcb
      = (topo.routing_routers.map (propagated_msg topo pcb.rotf.if_id pcb), pcb) := by
  rw [propagate_core_pcb, propagate_foldl]
  simp

/-- The peer-marking fold changes only the `block_size` of the PCBMarking,
growing it by `PeerMarking.LEN` per peer router. -/
theorem ad_marking_foldl_fst (topo : Topology) (egress_if : Nat)
    (l : List RouterInfo) (pcbm : PCBMarking) (acc : List PeerMarking) :
    (l.foldl (ad_marking_step topo egress_if) (pcbm, acc)).1
      = { pcbm with
          ssf := { block_size := pcbm.ssf.block_size + l.length * PeerMarking.LEN } } := by
  induction l generalizing pcbm acc with
  | nil => simp
  | cons r rs ih =>
    rw [List.foldl_cons]
    show (rs.foldl (ad_marking_step topo egress_if) _).1 = _
    rw [ih]
    simp [ad_marking_step]
    ring

/-- The peer-marking fold appends one PeerMarking per peer router. -/
theorem ad_marking_foldl_len (topo : Topology) (egress_if : Nat)
    (l : List RouterInfo) (pcbm : PCBMarking) (acc : List PeerMarking) :
    (l.foldl (ad_marking_step topo egress_if) (pcbm, acc)).2.length
      = acc.length + l.length := by
  induction l generalizing pcbm acc with
  | nil => simp
  | cons r rs ih =>
    rw [List.foldl_cons]
    show (rs.foldl (ad_marking_step topo egress_if) _).2.length = _
    rw [ih]
    simp [ad_marking_step]
    omega

/-- The PCBMarking of a built AD marking: own identity, the given hop pair, and
a `block_size` of the base length plus one peer-marking length per peer. -/
theorem create_ad_marking_pcbm (topo : Topology) (ingress_if egress_if : Nat) :
    (create_ad_marking topo ingress_if egress_if).pcbm
      = { ad_id := topo.ad_id,
          ssf := { block_size :=
            PCBMarking.LEN + topo.peer_routers.length * PeerMarking.LEN },
          hof := { ingress_if := ingress_if, egress_if := egress_if },
          spcbf := { isd_id := topo.isd_id } } := by
  show (topo.peer_routers.foldl (ad_marking_step topo egress_if) (_, [])).1 = _
  rw [ad_marking_foldl_fst]
  rfl

/-- A built AD marking has exactly one PeerMarking per PEER neighbor. -/
theorem create_ad_marking_pms_len (topo : Topology) (ingress_if egress_if : Nat) :
    (create_ad_marking topo ingress_if egress_if).pms.length
      = topo.peer_routers.length := by
  show (topo.peer_routers.foldl (ad_marking_step topo egress_if) (_, [])).2.length = _
  rw [ad_marking_foldl_len]
  simp

/-- Draining the inbound queue appends every popped pcb, un-augmented and in
order, to the registration queue. -/
theorem core_drain_reg (topo : Topology) (bs reg : List HalfPathBeacon) :
    (core_drain topo bs reg).2 = reg ++ bs := by
  induction bs generalizing reg with
  | nil => simp [core_drain]
  | cons p ps ih => simp [core_drain, ih]

/-- Every message emitted while draining the inbound queue is addressed to a
ROUTING-category neighbor's address. -/
theorem core_drain_targets (topo : Topology) (bs reg : List HalfPathBeacon) :
    ∀ m ∈ (core_drain topo bs reg).1,
      m.2 ∈ topo.routing_routers.map RouterInfo.addr := by
  induction bs generalizing reg with
  | nil => simp [core_drain]
  | cons p ps ih =>
    intro m hm
    rw [core_drain] at hm
    simp only [propagate_core_pcb_eq, List.mem_append] at hm
    rcases hm with hm | hm
    · obtain ⟨r, hr, hrm⟩ := List.mem_map.mp hm
      subst hrm
      exact List.mem_map.mpr ⟨r, hr, rfl⟩
    · exact ih _ m hm

/-- The messages of one core propagation tick: the downstream fan-out of a
fresh beacon to the CHILD neighbors, the core-mesh fan-out of a fresh beacon
with the same timestamp to the ROUTING neighbors, then the drain of the
inbound queue; the inbound queue ends empty and the registration queue gains
the drained pcbs. -/
theorem core_tick_eq (topo : Topology) (now : Int) (st : BSState) :
    core_handle_pcbs_propagation topo now st
      = (topo.child_routers.map (propagated_msg topo 0 (origin_pcb topo now))
          ++ topo.routing_routers.map (propagated_msg topo 0 (origin_pcb topo now))
          ++ (core_drain topo st.beacons st.reg_queue).1,
         { beacons := [], reg_queue := st.reg_queue ++ st.beacons }) := by
  rw [core_handle_pcbs_propagation]
  simp only [propagate_downstream_pcb_eq, propagate_core_pcb_eq, core_drain_reg]
  rfl

/-- Stripping signatures does not change which PCBMarking is first. -/
theorem get_first_ad_remove_signatures (pcb : HalfPathBeacon) :
    pcb.remove_signatures.get_first_ad = pcb.get_first_ad := by
  cases h : pcb.ads <;>
    simp [HalfPathBeacon.remove_signatures, HalfPathBeacon.get_first_ad, h]

/-- A pcb that just got a marking appended has a first marking. -/
theorem get_first_ad_add_ad (pcb : HalfPathBeacon) (m : ADMarking) :
    ∃ fa, (pcb.add_ad m).get_first_ad = some fa := by
  cases h : pcb.ads <;>
    simp [HalfPathBeacon.add_ad, HalfPathBeacon.get_first_ad, h]

/-- After appending a marking and stripping signatures, the reversed path's
first hop is the appended marking's hop field. -/
theorem first_hop_of_add_ad_strip (pcb : HalfPathBeacon) (m : ADMarking) :
    ((pcb.add_ad m).remove_signatures).get_path_reversed.get_first_hop_of
      = some m.pcbm.hof := by
  simp [HalfPathBeacon.add_ad, HalfPathBeacon.remove_signatures,
        HalfPathBeacon.get_path_reversed, CorePath.get_first_hop_of]

/-- The acceptance scan of `core_process_pcb` is true exactly when some marking's
PCBMarking carries the server's own identity. -/
theorem process_pcb_any_iff (topo : Topology) (pcb : HalfPathBeacon) :
    (pcb.ads.any (fun ad =>
        ad.pcbm.spcbf.isd_id == topo.isd_id && ad.pcbm.ad_id == topo.ad_id)) = true
      ↔ ∃ ad ∈ pcb.ads,
          ad.pcbm.spcbf.isd_id = topo.isd_id ∧ ad.pcbm.ad_id = topo.ad_id := by
  simp [List.any_eq_true]

/-- Enqueueing a pcb changes the state (the inbound queue strictly grows). -/
theorem enqueue_ne (st : BSState) (pcb : HalfPathBeacon) :
    { st with beacons := st.beacons ++ [pcb] } ≠ st := by
  intro h
  have := congrArg (fun s => s.beacons.length) h
  simp at this

/-- Every message emitted by a successful `register_up_path` is a PathRecords
carrying exactly the (still-signed) pcb it was given. -/
theorem register_up_path_sends (ctx : ServerCtx) (pcb : HalfPathBeacon)
    (l : List (Msg × Nat)) (h : register_up_path ctx pcb = some l) :
    ∀ m ∈ l, ∃ pr, m.1 = Msg.pathRec pr ∧ pr.pcbs = [pcb] := by
  cases hfa : pcb.get_first_ad with
  | none => simp [register_up_path, hfa, Option.bind_eq_bind, Option.none_bind] at h
  | some fa =>
    cases hps : ctx.topo.path_server with
    | none => simp [register_up_path, hfa, hps, Option.bind_eq_bind, Option.some_bind, Option.none_bind] at h
    | some dst =>
      simp only [register_up_path, hfa, hps, Option.bind_eq_bind, Option.some_bind, Option.pure_def] at h
      obtain rfl : _ = l := Option.some.inj h
      intro m hm
      simp only [List.mem_singleton] at hm
      subst hm
      exact ⟨_, rfl, rfl⟩

/-- A successful `register_down_path` returns the signature-stripped pcb as the
post-state of its argument, and every message it emits is a PathRecords
carrying exactly the stripped pcb. -/
theorem register_down_path_sends (ctx : ServerCtx) (pcb : HalfPathBeacon)
    (r : List (Msg × Nat) × HalfPathBeacon) (h : register_down_path ctx pcb = some r) :
    r.2 = pcb.remove_signatures ∧
    ∀ m ∈ r.1, ∃ pr, m.1 = Msg.pathRec pr ∧ pr.pcbs = [pcb.remove_signatures] := by
  cases hfa : pcb.remove_signatures.get_first_ad with
  | none => simp [register_down_path, hfa, Option.bind_eq_bind, Option.none_bind] at h
  | some fa =>
    cases hfh : pcb.remove_signatures.get_path_reversed.get_first_hop_of with
    | none => simp [register_down_path, hfa, hfh, Option.bind_eq_bind, Option.some_bind, Option.none_bind] at h
    | some fh =>
      cases hl : lookup_ifid ctx.ifid2addr fh.ingress_if with
      | none => simp [register_down_path, hfa, hfh, hl, Option.bind_eq_bind, Option.some_bind, Option.none_bind] at h
      | some nh =>
        simp only [register_down_path, hfa, hfh, hl, Option.bind_eq_bind, Option.some_bind, Option.pure_def] at h
        obtain rfl : _ = r := Option.some.inj h
        refine ⟨rfl, ?_⟩
        intro m hm
        simp only [List.mem_singleton] at hm
        subst hm
        exact ⟨_, rfl, rfl⟩

/-- A successful `register_core_path` returns the signature-stripped pcb as the
post-state of its argument, and every message it emits is a PathRecords
carrying either the pcb itself (the local-path-server half) or its
signature-stripped form (the origin-directed half). -/
theorem register_core_path_sends (ctx : ServerCtx) (pcb : HalfPathBeacon)
    (r : List (Msg × Nat) × HalfPathBeacon) (h : register_core_path ctx pcb = some r) :
    r.2 = pcb.remove_signatures ∧
    ∀ m ∈ r.1, ∃ pr, m.1 = Msg.pathRec pr ∧
      (pr.pcbs = [pcb] ∨ pr.pcbs = [pcb.remove_signatures]) := by
  cases hfa : pcb.get_first_ad with
  | none => simp [register_core_path, hfa, Option.bind_eq_bind, Option.none_bind] at h
  | some fa =>
    cases hfh : pcb.remove_signatures.get_path_reversed.get_first_hop_of with
    | none => simp [register_core_path, hfa, hfh, Option.bind_eq_bind, Option.some_bind, Option.none_bind] at h
    | some fh =>
      cases hl : lookup_ifid ctx.ifid2addr fh.ingress_if with
      | none => simp [register_core_path, hfa, hfh, hl, Option.bind_eq_bind, Option.some_bind, Option.none_bind] at h
      | some nh =>
        simp only [register_core_path, hfa, hfh, hl, Option.bind_eq_bind, Option.some_bind, Option.pure_def] at h
        obtain rfl : _ = r := Option.some.inj h
        refine ⟨rfl, ?_⟩
        intro m hm
        simp only [List.mem_append, List.mem_singleton] at hm
        rcases hm with hm | rfl
        · cases hps : ctx.topo.path_server with
          | none => rw [hps] at hm; simp at hm
          | some dst =>
            rw [hps] at hm
            simp only [List.mem_singleton] at hm
            subst hm
            exact ⟨_, rfl, Or.inl rfl⟩
        · exact ⟨_, rfl, Or.inr rfl⟩

/-- Mapping before `any` composes the predicate with the map function. -/
theorem any_comp_map {α β : Type} (f : α → β) (p : β → Bool) (l : List α) :
    (l.map f).any p = l.any (fun a => p (f a)) := by
  induction l with
  | nil => rfl
  | cons a l ih => simp [ih]

/-- C1: the claim says the freshly originated PCB timestamp
`((T + 86400) mod (4 * 65536)) / 4` is an integer in [0, 65535].  The bound
holds, but Python 3 true division makes the value fractional whenever
`T mod 4 ≠ 0`: at T = 1 the code produces 86401/4 = 21600.25, which is not an
integer (the intended operation is floor division). -/
theorem C1_timestamp_not_integer :
    pcb_timestamp 1 = 86401 / 4
  ∧ (0 ≤ pcb_timestamp 1 ∧ pcb_timestamp 1 < 65536)
  ∧ ¬ ∃ n : ℤ, pcb_timestamp 1 = (n : ℚ) := by
  have h0 : ((1 + DELTA) % (TIME_INTERVAL * 2 ^ 16) : Int) = 86401 := by decide
  have h1 : pcb_timestamp 1 = 86401 / 4 := by
    rw [pcb_timestamp, h0]
    norm_num [TIME_INTERVAL]
  refine ⟨h1, ⟨?_, ?_⟩, ?_⟩
  · rw [h1]; norm_num
  · rw [h1]; norm_num
  · rintro ⟨n, hn⟩
    rw [h1] at hn
    have h4 : (86401 : ℚ) = (n : ℚ) * 4 := by
      field_simp at hn
      linarith
    have h5 : (86401 : ℤ) = n * 4 := by exact_mod_cast h4
    omega

/-- C2 (amended): when no local path server is configured, the core server's
local-path-server half is skipped silently and registration proceeds with
exactly the one origin-directed send — provided the `ifid2addr` table resolves
the reversed path's first hop; when the table has no entry for that interface,
`core_register_one` errors out (`none`, an uncaught KeyError) instead of
skipping that half. -/
theorem C2_registration_half_skipping (ctx : ServerCtx) (pcb : HalfPathBeacon)
    (hps : ctx.topo.path_server = none) :
    (∀ nh, lookup_ifid ctx.ifid2addr pcb.rotf.if_id = some nh →
        ∃ pr : PathRecords, core_register_one ctx pcb = some ([(Msg.pathRec pr, nh)], pcb))
  ∧ (lookup_ifid ctx.ifid2addr pcb.rotf.if_id = none →
        core_register_one ctx pcb = none) := by
  obtain ⟨fa, hfa⟩ := get_first_ad_add_ad pcb (create_ad_marking ctx.topo pcb.rotf.if_id 0)
  have hfh := first_hop_of_add_ad_strip pcb (create_ad_marking ctx.topo pcb.rotf.if_id 0)
  rw [create_ad_marking_pcbm] at hfh
  constructor
  · intro nh hnh
    refine ⟨{ dst := ctx.addr,
              info := { type := PIT.core, src_isd := fa.spcbf.isd_id,
                        dst_isd := ctx.topo.isd_id, src_ad := fa.ad_id,
                        dst_ad := ctx.topo.ad_id },
              pcbs := [(pcb.add_ad (create_ad_marking ctx.topo pcb.rotf.if_id 0)).remove_signatures],
              path := some ((pcb.add_ad
                (create_ad_marking ctx.topo pcb.rotf.if_id 0)).remove_signatures.get_path_reversed) },
            ?_⟩
    simp only [core_register_one, register_core_path, hfa, hfh, hps, hnh,
               Option.bind_eq_bind, Option.some_bind, Option.pure_def,
               List.nil_append]
  · intro hnone
    simp only [core_register_one, register_core_path, hfa, hfh, hps, hnone,
               Option.bind_eq_bind, Option.some_bind, Option.none_bind,
               Option.pure_def]

/-- C2 (counterexample to the claim as stated): with a path server configured
but an empty `ifid2addr` table, the code does not skip the origin-directed
half and continue with the next PCB — the registration drain aborts with an
uncaught lookup error (`none`) on the very first PCB. -/
theorem C2_counterexample :
    ctxC2.topo.path_server = some 9
  ∧ lookup_ifid ctxC2.ifid2addr pcbC2.rotf.if_id = none
  ∧ core_register_drain ctxC2 [pcbC2, pcbC2] = none :=
  ⟨rfl, rfl, rfl⟩

/-- C2 witness: a concrete context with no local path server and a resolvable
next hop performs exactly the origin-directed send, with no error. -/
theorem C2_witness :
    ∃ pr : PathRecords,
      core_register_one ctxC2w pcbC2 = some ([(Msg.pathRec pr, 42)], pcbC2) :=
  (C2_registration_half_skipping ctxC2w pcbC2 rfl).1 42 rfl

/-- C3: a core server's accept drops (state unchanged) any inbound PCB one of
whose markings carries the own (ISD id, AD id) — at any position — and
otherwise appends the PCB to the inbound queue, touching nothing else. -/
theorem C3_accept_filter (topo : Topology) (st : BSState) (pcb : HalfPathBeacon) :
    ((∃ ad ∈ pcb.ads,
        ad.pcbm.spcbf.isd_id = topo.isd_id ∧ ad.pcbm.ad_id = topo.ad_id) →
      core_process_pcb topo st pcb = st)
  ∧ ((∀ ad ∈ pcb.ads,
        ¬(ad.pcbm.spcbf.isd_id = topo.isd_id ∧ ad.pcbm.ad_id = topo.ad_id)) →
      core_process_pcb topo st pcb = { st with beacons := st.beacons ++ [pcb] }) := by
  have hiff := process_pcb_any_iff topo pcb
  constructor
  · intro h
    have hb : (pcb.ads.any (fun ad =>
        ad.pcbm.spcbf.isd_id == topo.isd_id && ad.pcbm.ad_id == topo.ad_id)) = true :=
      hiff.mpr h
    simp [core_process_pcb, hb]
  · intro h
    cases hb : pcb.ads.any (fun ad =>
        ad.pcbm.spcbf.isd_id == topo.isd_id && ad.pcbm.ad_id == topo.ad_id)
    case false => simp [core_process_pcb, hb]
    case true =>
      obtain ⟨ad, hm, h1, h2⟩ := hiff.mp hb
      exact absurd ⟨h1, h2⟩ (h ad hm)

/-- C3 witness: a concrete PCB carrying the own identity in the middle of its
marking sequence is dropped, the state staying unchanged. -/
theorem C3_witness : core_process_pcb topoC3 stC3 pcbC3 = stC3 :=
  (C3_accept_filter topoC3 stC3 pcbC3).1 (by decide)

/-- C4: propagating a PCB (downstream or core-mesh) emits one independent
augmented copy per neighbor — same info field, marking sequence extended by
exactly one marking whose ingress is the original's ROT interface and whose
egress is that neighbor's interface, ROT field set to that egress — and the
original pcb is returned unchanged after all sends. -/
theorem C4_fanout_immutable (topo : Topology) (pcb : HalfPathBeacon) :
    propagate_downstream_pcb topo pcb
        = (topo.child_routers.map (propagated_msg topo pcb.rotf.if_id pcb), pcb)
  ∧ propagate_core_pcb topo pcb
        = (topo.routing_routers.map (propagated_msg topo pcb.rotf.if_id pcb), pcb) :=
  ⟨propagate_downstream_pcb_eq topo pcb, propagate_core_pcb_eq topo pcb⟩

/-- C5: the built AD marking's `block_size` is the base PCBMarking length plus
one `PeerMarking.LEN` per PEER neighbor, and exactly one PeerMarking is
appended per PEER neighbor, for any number of peers. -/
theorem C5_block_size (topo : Topology) (ingress_if egress_if : Nat) :
    (create_ad_marking topo ingress_if egress_if).pcbm.ssf.block_size
        = PCBMarking.LEN + topo.peer_routers.length * PeerMarking.LEN
  ∧ (create_ad_marking topo ingress_if egress_if).pms.length
        = topo.peer_routers.length := by
  constructor
  · rw [create_ad_marking_pcbm]
  · exact create_ad_marking_pms_len topo ingress_if egress_if

/-- C6: one core propagation tick sends one fresh downstream beacon per CHILD
neighbor and one fresh core-mesh beacon per ROUTING neighbor, then drains the
inbound queue completely, appends every drained PCB un-augmented to the
registration queue, and addresses every drain-phase message to a ROUTING
neighbor only. -/
theorem C6_core_propagation_tick (topo : Topology) (now : Int) (st : BSState) :
    (core_handle_pcbs_propagation topo now st).2
        = { beacons := [], reg_queue := st.reg_queue ++ st.beacons }
  ∧ (core_handle_pcbs_propagation topo now st).1
        = topo.child_routers.map (propagated_msg topo 0 (origin_pcb topo now))
          ++ topo.routing_routers.map (propagated_msg topo 0 (origin_pcb topo now))
          ++ (core_drain topo st.beacons st.reg_queue).1
  ∧ ∀ m ∈ (core_drain topo st.beacons st.reg_queue).1,
      m.2 ∈ topo.routing_routers.map RouterInfo.addr := by
  refine ⟨?_, ?_, core_drain_targets topo st.beacons st.reg_queue⟩
  · rw [core_tick_eq]
  · rw [core_tick_eq]

/-- C6 witness: on a concrete topology with one beacon queued, the tick leaves
the inbound queue empty and moves the beacon to the registration queue. -/
theorem C6_witness :
    (core_handle_pcbs_propagation topoC6 0 stC6).2
      = { beacons := [], reg_queue := [pcbC6] } :=
  (C6_core_propagation_tick topoC6 0 stC6).1

/-- C7: on a leaf registration step, after the terminating marking (egress 0)
is appended to a copy, an UP PathRecords with the still-signed PCB goes to the
local path server and a DOWN PathRecords with the signature-stripped PCB and
the reversed path attached goes to the next hop resolved from the reversed
path's first hop; both PathInfos carry src ISD = dst ISD = own ISD,
src AD = the PCB's first marking's AD, dst AD = own AD. -/
theorem C7_leaf_registration (ctx : ServerCtx) (pcb : HalfPathBeacon) (ps nh : Nat)
    (hps : ctx.topo.path_server = some ps)
    (hnh : lookup_ifid ctx.ifid2addr pcb.rotf.if_id = some nh) :
    ∃ fa, (pcb.add_ad (create_ad_marking ctx.topo pcb.rotf.if_id 0)).get_first_ad = some fa
      ∧ local_register_one ctx pcb = some
        ([(Msg.pathRec
             { dst := ps,
               info := { type := PIT.up, src_isd := ctx.topo.isd_id,
                         dst_isd := ctx.topo.isd_id, src_ad := fa.ad_id,
                         dst_ad := ctx.topo.ad_id },
               pcbs := [pcb.add_ad (create_ad_marking ctx.topo pcb.rotf.if_id 0)],
               path := none }, ps),
          (Msg.pathRec
             { dst := ctx.addr,
               info := { type := PIT.down, src_isd := ctx.topo.isd_id,
                         dst_isd := ctx.topo.isd_id, src_ad := fa.ad_id,
                         dst_ad := ctx.topo.ad_id },
               pcbs := [(pcb.add_ad (create_ad_marking ctx.topo pcb.rotf.if_id 0)).remove_signatures],
               path := some ((pcb.add_ad
                 (create_ad_marking ctx.topo pcb.rotf.if_id 0)).remove_signatures.get_path_reversed) },
           nh)], pcb) := by
  obtain ⟨fa, hfa⟩ := get_first_ad_add_ad pcb (create_ad_marking ctx.topo pcb.rotf.if_id 0)
  have hfa' : ((pcb.add_ad
      (create_ad_marking ctx.topo pcb.rotf.if_id 0)).remove_signatures).get_first_ad
      = some fa := by
    rw [get_first_ad_remove_signatures]
    exact hfa
  have hfh := first_hop_of_add_ad_strip pcb (create_ad_marking ctx.topo pcb.rotf.if_id 0)
  rw [create_ad_marking_pcbm] at hfh
  refine ⟨fa, hfa, ?_⟩
  simp only [local_register_one, register_up_path, register_down_path,
             hfa, hfa', hps, hfh, hnh,
             Option.bind_eq_bind, Option.some_bind, Option.pure_def,
             List.singleton_append]

/-- C7 witness: on a concrete leaf context the registration step succeeds and
returns the popped pcb unchanged. -/
theorem C7_witness :
    ∃ fa sends,
      (pcbC7.add_ad (create_ad_marking ctxC7.topo pcbC7.rotf.if_id 0)).get_first_ad
        = some fa
      ∧ local_register_one ctxC7 pcbC7 = some (sends, pcbC7) := by
  obtain ⟨fa, h1, h2⟩ := C7_leaf_registration ctxC7 pcbC7 3 8 rfl rfl
  exact ⟨fa, _, h1, h2⟩

/-- C8: every beacon of the origination phase of a core propagation tick (the
first child-count + routing-count messages) carries the tick's single quantized
timestamp, so the downstream and core-mesh beacons share an identical
timestamp. -/
theorem C8_shared_origin_timestamp (topo : Topology) (now : Int) (st : BSState)
    (m : Msg × Nat)
    (hm : m ∈ (core_handle_pcbs_propagation topo now st).1.take
            (topo.child_routers.length + topo.routing_routers.length)) :
    ∃ dst pcb, m.1 = Msg.beacon dst pcb ∧ pcb.iof.timestamp = pcb_timestamp now := by
  simp only [core_tick_eq] at hm
  have hlen : (topo.child_routers.map (propagated_msg topo 0 (origin_pcb topo now))
      ++ topo.routing_routers.map (propagated_msg topo 0 (origin_pcb topo now))).length
      = topo.child_routers.length + topo.routing_routers.length := by simp
  rw [List.take_left' hlen] at hm
  rcases List.mem_append.mp hm with h | h <;>
  · obtain ⟨r, hr, rfl⟩ := List.mem_map.mp h
    exact ⟨r.addr, augmented_pcb topo 0 (origin_pcb topo now) r.interface.if_id, rfl, rfl⟩

/-- C8 witness: the first origination message of a concrete tick is a beacon
carrying the tick's timestamp. -/
theorem C8_witness :
    ∃ dst pcb, mC8.1 = Msg.beacon dst pcb ∧ pcb.iof.timestamp = pcb_timestamp 0 :=
  C8_shared_origin_timestamp topoC8 0 ⟨[], []⟩ mC8 (by
    simp only [core_tick_eq]
    simp [topoC8, core_drain, mC8])

/-- C9: a registration step (core or leaf role) returns the popped PCB
unmodified; the terminating marking and the signature stripping appear only in
the emitted PathRecords, which carry the augmented copy or its stripped form. -/
theorem C9_reg_popped_unmodified (ctx : ServerCtx) (pcb : HalfPathBeacon) :
    (∀ s p', core_register_one ctx pcb = some (s, p') →
        p' = pcb ∧ ∀ m ∈ s, ∃ pr, m.1 = Msg.pathRec pr ∧
          (pr.pcbs = [pcb.add_ad (create_ad_marking ctx.topo pcb.rotf.if_id 0)]
           ∨ pr.pcbs = [(pcb.add_ad
                (create_ad_marking ctx.topo pcb.rotf.if_id 0)).remove_signatures]))
  ∧ (∀ s p', local_register_one ctx pcb = some (s, p') →
        p' = pcb ∧ ∀ m ∈ s, ∃ pr, m.1 = Msg.pathRec pr ∧
          (pr.pcbs = [pcb.add_ad (create_ad_marking ctx.topo pcb.rotf.if_id 0)]
           ∨ pr.pcbs = [(pcb.add_ad
                (create_ad_marking ctx.topo pcb.rotf.if_id 0)).remove_signatures])) := by
  constructor
  · intro s p' h
    cases hreg : register_core_path ctx
        (pcb.add_ad (create_ad_marking ctx.topo pcb.rotf.if_id 0)) with
    | none =>
      rw [core_register_one] at h
      rw [hreg] at h
      simp at h
    | some r =>
      rw [core_register_one] at h
      rw [hreg] at h
      simp only [Option.bind_eq_bind, Option.some_bind, Option.pure_def,
                 Option.some.injEq, Prod.mk.injEq] at h
      obtain ⟨rfl, rfl⟩ := h
      refine ⟨rfl, ?_⟩
      intro m hm
      obtain ⟨-, hsend⟩ := register_core_path_sends ctx _ r hreg
      exact hsend m hm
  · intro s p' h
    cases hup : register_up_path ctx
        (pcb.add_ad (create_ad_marking ctx.topo pcb.rotf.if_id 0)) with
    | none =>
      rw [local_register_one] at h
      rw [hup] at h
      simp at h
    | some up =>
      cases hdown : register_down_path ctx
          (pcb.add_ad (create_ad_marking ctx.topo pcb.rotf.if_id 0)) with
      | none =>
        rw [local_register_one] at h
        rw [hup, hdown] at h
        simp at h
      | some r =>
        rw [local_register_one] at h
        rw [hup, hdown] at h
        simp only [Option.bind_eq_bind, Option.some_bind, Option.pure_def,
                   Option.some.injEq, Prod.mk.injEq] at h
        obtain ⟨rfl, rfl⟩ := h
        refine ⟨rfl, ?_⟩
        intro m hm
        rcases List.mem_append.mp hm with hmu | hmd
        · obtain ⟨pr, hpr, hpcbs⟩ := register_up_path_sends ctx _ up hup m hmu
          exact ⟨pr, hpr, Or.inl hpcbs⟩
        · obtain ⟨-, hsend⟩ := register_down_path_sends ctx _ r hdown
          obtain ⟨pr, hpr, hpcbs⟩ := hsend m hmd
          exact ⟨pr, hpr, Or.inr hpcbs⟩

/-- C9 witness: on a concrete successful registration the popped pcb comes back
unchanged and every emitted PathRecords carries the augmented copy or its
stripped form. -/
theorem C9_witness :
    pcbC9 = pcbC9 ∧ ∀ m ∈ sC9, ∃ pr, m.1 = Msg.pathRec pr ∧
      (pr.pcbs = [pcbC9.add_ad (create_ad_marking ctxC9.topo pcbC9.rotf.if_id 0)]
       ∨ pr.pcbs = [(pcbC9.add_ad
            (create_ad_marking ctxC9.topo pcbC9.rotf.if_id 0)).remove_signatures]) :=
  (C9_reg_popped_unmodified ctxC9 pcbC9).1 sC9 pcbC9 rfl

/-- C10: the loop-prevention filter looks only at each marking's PCBMarking:
acceptance is insensitive to everything outside the PCBMarking identity
projection (in particular to PeerMarkings), and a PCB is enqueued exactly when
no PCBMarking carries the own (ISD id, AD id). -/
theorem C10_filter_pcbm_only (topo : Topology) (st : BSState)
    (pcb pcb' : HalfPathBeacon)
    (hsame : pcb'.ads.map (fun ad => (ad.pcbm.spcbf.isd_id, ad.pcbm.ad_id))
           = pcb.ads.map (fun ad => (ad.pcbm.spcbf.isd_id, ad.pcbm.ad_id))) :
    (core_process_pcb topo st pcb = { st with beacons := st.beacons ++ [pcb] }
       ↔ ∀ ad ∈ pcb.ads,
           ¬(ad.pcbm.spcbf.isd_id = topo.isd_id ∧ ad.pcbm.ad_id = topo.ad_id))
  ∧ (core_process_pcb topo st pcb' = st ↔ core_process_pcb topo st pcb = st) := by
  have hproj : ∀ q : HalfPathBeacon,
      q.ads.any (fun ad =>
        ad.pcbm.spcbf.isd_id == topo.isd_id && ad.pcbm.ad_id == topo.ad_id)
      = (q.ads.map (fun ad => (ad.pcbm.spcbf.isd_id, ad.pcbm.ad_id))).any
          (fun p => p.1 == topo.isd_id && p.2 == topo.ad_id) := by
    intro q
    rw [any_comp_map]
  have hany : pcb'.ads.any (fun ad =>
        ad.pcbm.spcbf.isd_id == topo.isd_id && ad.pcbm.ad_id == topo.ad_id)
      = pcb.ads.any (fun ad =>
        ad.pcbm.spcbf.isd_id == topo.isd_id && ad.pcbm.ad_id == topo.ad_id) := by
    rw [hproj, hproj, hsame]
  have hiff := process_pcb_any_iff topo pcb
  constructor
  · cases hb : pcb.ads.any (fun ad =>
        ad.pcbm.spcbf.isd_id == topo.isd_id && ad.pcbm.ad_id == topo.ad_id)
    case true =>
      simp only [core_process_pcb, hb, if_true]
      constructor
      · intro h
        exact absurd h.symm (enqueue_ne st pcb)
      · intro hall
        exfalso
        obtain ⟨ad, hm, h1, h2⟩ := hiff.mp hb
        exact hall ad hm ⟨h1, h2⟩
    case false =>
      simp only [core_process_pcb, hb, Bool.false_eq_true, if_false]
      constructor
      · intro _ ad hm hconj
        have hb' := hiff.mpr ⟨ad, hm, hconj.1, hconj.2⟩
        rw [hb] at hb'
        exact Bool.false_ne_true hb'
      · intro _
        trivial
  · simp only [core_process_pcb, hany]
    cases hb : pcb.ads.any (fun ad =>
        ad.pcbm.spcbf.isd_id == topo.isd_id && ad.pcbm.ad_id == topo.ad_id)
    case true => simp
    case false =>
      simp only [Bool.false_eq_true, if_false]
      constructor
      · intro h
        exact absurd h (enqueue_ne st pcb')
      · intro h
        exact absurd h (enqueue_ne st pcb)

/-- C10 witness: a PCB whose only marking names the own AD solely inside a
PeerMarking (its PCBMarking identity differs) is enqueued, not dropped. -/
theorem C10_witness :
    core_process_pcb topoC10 ⟨[], []⟩ pcbC10 = { beacons := [pcbC10], reg_queue := [] } :=
  ((C10_filter_pcbm_only topoC10 ⟨[], []⟩ pcbC10 pcbC10 rfl).1).mpr (by decide)

end Scion
